import Mathlib

/-!
Shallow embedding of the coupling / periodicity orchestration core of the
repository:

* `feti_dynamic_coupled_solver.py` — the FETI dual-domain subcycled time
  coupler (`FetiDynamicCoupledSolver`);
* `fluid_rve_analysis.py` — the RVE bounding-box face classifier and
  periodicity constraint builder (`FluidRVEAnalysis`).

Python floats are modelled as rationals (`ℚ`); all operations the claims
touch are exact on the inputs considered.  Calls into the opaque native
collaborators (solver strategies, mapper, coupling utility) are modelled as
events in a trace, or as function parameters where only their data flow
matters.
-/

namespace Kratos

/-! ## FETI dynamic coupled solver (feti_dynamic_coupled_solver.py) -/

/-- One observable call made by the coupler on its collaborators during
`SolveSolutionStep` (lines 58–85 of `feti_dynamic_coupled_solver.py`).
Events carry the domain they act on: `solveA`/`sendStiffA` act on the
origin domain (index 0), the `…B` events on the destination domain
(index 1); `initStepVtk`/`finalizeVtk` act on the secondary vtk output
wrapper. -/
inductive CoupEv where
  | solveA
  | sendStiffA
  | advanceB
  | initStepB
  | initStepVtk
  | predictB
  | solveB
  | sendStiffB
  | equilibrate
  | finalizeB
  | finalizeVtk
  | outputB
deriving DecidableEq, BEq

/-- Trace of one iteration of the substep loop of `SolveSolutionStep`
(`for sub_timestep in range(1, self.timestep_ratio+1)`, lines 65–83).
`vtkTwo` models `len(self.vtk_output_wrappers_vector) == 2`. -/
def subStepEvents (timestep_ratio : Nat) (vtkTwo : Bool) (sub : Nat) : List CoupEv :=
  (if sub > 1 then
      [.advanceB, .initStepB] ++ (if vtkTwo then [.initStepVtk] else []) ++ [.predictB]
    else [])
  ++ [.solveB, .sendStiffB, .equilibrate]
  ++ (if sub ≠ timestep_ratio then
      [.finalizeB] ++ (if vtkTwo then [.finalizeVtk] else []) ++ [.outputB]
    else [])

/-- `FetiDynamicCoupledSolver.SolveSolutionStep` (lines 58–85): trace of
collaborator calls together with the returned boolean.  `resA` and `resB`
are the booleans the two domains' `SolveSolutionStep` calls return (the
source binds neither: line 60 and line 73 discard them), `resB sub` being
the result of domain B's solve at substep `sub`.  The method ends with
`return True` (line 85). -/
def solveSolutionStep (timestep_ratio : Nat) (vtkTwo : Bool)
    (resA : Bool) (resB : Nat → Bool) : List CoupEv × Bool :=
  let _ := resA
  let _ := resB
  ([.solveA, .sendStiffA]
      ++ (List.range timestep_ratio).flatMap (fun k => subStepEvents timestep_ratio vtkTwo (k + 1)),
    true)

/-- Order of the two solver-advance calls in `AdvanceInTime`
(lines 36–48): domain B (index 1) first, then domain A (index 0). -/
inductive AdvEv where
  | advB
  | advA
deriving DecidableEq

/-- `FetiDynamicCoupledSolver.AdvanceInTime` (lines 36–48).  `advA` and
`advB` are the two wrapped solvers' `AdvanceInTime` methods.  Returns the
call trace, the coupler's own `self.time`, and `self.solverB_time`. -/
def advanceInTime (advA advB : ℚ → ℚ) (current_time : ℚ) : List AdvEv × ℚ × ℚ :=
  let time : ℚ := 0
  let solverB_time := advB current_time
  let solver_time := advA current_time
  let time := if solver_time ≠ 0 then (if time = 0 then solver_time else time) else time
  ([.advB, .advA], time, solverB_time)

/-- Truncation toward zero, the semantics of Python's `int()` on a float. -/
def pyInt (r : ℚ) : ℤ :=
  if r < 0 then -(⌊-r⌋) else ⌊r⌋

/-- The `timestep_ratio` handling in `FetiDynamicCoupledSolver.__init__`
(lines 28–31): read the value as a float, raise when `int(ratio) != ratio`,
otherwise keep `int(ratio)`. -/
def timestepRatioInit (timestep_ratio : ℚ) : Except String ℤ :=
  if (pyInt timestep_ratio : ℚ) ≠ timestep_ratio then
    .error "An integer timestep_ratio must be specified in the CoSim parameters file."
  else
    .ok (pyInt timestep_ratio)

/-- What `__SendStiffnessMatrixToUtility` submits to the coupling utility:
either `SetEffectiveStiffnessMatrixImplicit(matrix, idx)` or
`SetEffectiveStiffnessMatrixExplicit(idx)`. -/
inductive StiffnessSubmission (M : Type) where
  | implicitMatrix (m : M) (idx : Nat)
  | explicitSignal (idx : Nat)
deriving DecidableEq

/-- The `is_implicit` flags computed in `__InitializeFetiMethod`
(lines 109–113): start from `[True, True]`, clear the entry whose
Newmark beta equals `0.0`. -/
def mkIsImplicit (origin_newmark_beta destination_newmark_beta : ℚ) : Bool × Bool :=
  let is_implicit : Bool × Bool := (true, true)
  let is_implicit := if origin_newmark_beta = 0 then (false, is_implicit.2) else is_implicit
  let is_implicit := if destination_newmark_beta = 0 then (is_implicit.1, false) else is_implicit
  is_implicit

/-- Index into the `is_implicit` pair, as `self.is_implicit[solverIndex]`. -/
def isImplicitAt (p : Bool × Bool) : Fin 2 → Bool
  | 0 => p.1
  | 1 => p.2

/-- `FetiDynamicCoupledSolver.__SendStiffnessMatrixToUtility` (lines
150–155): implicit domains fetch the system matrix from their solver
strategy (`getSystemMatrix`) and submit it tagged with the domain index;
explicit domains submit only the explicit-mode signal. -/
def sendStiffnessMatrixToUtility {M : Type} (is_implicit : Bool × Bool)
    (getSystemMatrix : Fin 2 → M) (solverIndex : Fin 2) : StiffnessSubmission M :=
  if isImplicitAt is_implicit solverIndex then
    .implicitMatrix (getSystemMatrix solverIndex) solverIndex.val
  else
    .explicitSignal solverIndex.val

/-- The Newmark beta configured for a domain index: `origin_newmark_beta`
for index 0, `destination_newmark_beta` for index 1. -/
def betaAt (origin_newmark_beta destination_newmark_beta : ℚ) : Fin 2 → ℚ
  | 0 => origin_newmark_beta
  | 1 => destination_newmark_beta

/-! ## RVE analysis (fluid_rve_analysis.py) -/

/-- A coordinate triple, as `KratosMultiphysics.Array3`. -/
structure Array3 where
  c0 : ℚ
  c1 : ℚ
  c2 : ℚ
deriving DecidableEq

/-- Component access, `a[i]`. -/
def Array3.get (a : Array3) : Fin 3 → ℚ
  | 0 => a.c0
  | 1 => a.c1
  | 2 => a.c2

/-- A mesh node with its coordinates `node.X`, `node.Y`, `node.Z`. -/
structure KNode where
  X : ℚ
  Y : ℚ
  Z : ℚ
deriving DecidableEq

/-- Body of the node loop of `FluidRVEAnalysis._DetectBoundingBox`
(lines 86–97): update the running per-axis minima and maxima with one
node's coordinates. -/
def bboxStep (acc : Array3 × Array3) (node : KNode) : Array3 × Array3 :=
  (⟨min acc.1.c0 node.X, min acc.1.c1 node.Y, min acc.1.c2 node.Z⟩,
   ⟨max acc.2.c0 node.X, max acc.2.c1 node.Y, max acc.2.c2 node.Z⟩)

/-- `FluidRVEAnalysis._DetectBoundingBox` (lines 75–103): scan the nodes of
the averaging model part once, starting from the `±1e20` sentinel corners,
and return `(min_corner, max_corner)`. -/
def detectBoundingBox (nodes : List KNode) : Array3 × Array3 :=
  nodes.foldl bboxStep
    (⟨10 ^ 20, 10 ^ 20, 10 ^ 20⟩, ⟨-(10 ^ 20), -(10 ^ 20), -(10 ^ 20)⟩)

/-- A boundary condition (facet): its geometric center
(`cond.GetGeometry().Center()`) and the ids of its nodes. -/
structure BCond where
  center : Array3
  nodes : List Nat
deriving DecidableEq

/-- The facet test of `__PopulateMp` (line 117):
`abs(xc[component] - coordinate) < eps`. -/
def condMatches (coordinate : ℚ) (component : Fin 3) (eps : ℚ) (c : BCond) : Bool :=
  |c.center.get component - coordinate| < eps

/-- The node loop of `__PopulateMp` (lines 120–126): walk the node ids of
the included facets in order; a node not yet carrying the `SLAVE` flag is
added to `node_ids` and flagged.  `claimed` is the set of already-flagged
node ids; returns `(node_ids, claimed')`. -/
def claimNodes : List Nat → List Nat → List Nat × List Nat
  | [], claimed => ([], claimed)
  | n :: rest, claimed =>
    if n ∈ claimed then
      claimNodes rest claimed
    else
      let r := claimNodes rest (n :: claimed)
      (n :: r.1, r.2)

/-- A face model part: the conditions added to it and the node ids added
to it. -/
structure FaceMP where
  conds : List BCond
  nodeIds : List Nat
deriving DecidableEq

/-- The construction part of `FluidRVEAnalysis.__PopulateMp` (lines
109–128): after `mp = mp.GetRootModelPart()`, every condition of the
*root* model part whose center is within `eps` of the target coordinate on
the given axis is added to the face model part (lines 115–118), then its
nodes are claimed (lines 120–127). -/
def populateMpCore (rootConds : List BCond) (coordinate : ℚ) (component : Fin 3)
    (eps : ℚ) (claimed : List Nat) : FaceMP × List Nat :=
  let faceConds := rootConds.filter (condMatches coordinate component eps)
  let r := claimNodes (faceConds.flatMap (fun c => c.nodes)) claimed
  (⟨faceConds, r.1⟩, r.2)

/-- `FluidRVEAnalysis.__PopulateMp` (lines 105–128) including the guard of
lines 106–107: the *supplied* boundary model part must have at least one
condition, otherwise an exception is raised; the face group itself is then
built from the root model part's conditions. -/
def populateMp (boundaryConds rootConds : List BCond) (coordinate : ℚ)
    (component : Fin 3) (eps : ℚ) (claimed : List Nat) :
    Except String (FaceMP × List Nat) :=
  if boundaryConds.length = 0 then
    .error "Boundary_mp is expected to have conditions and has none"
  else
    .ok (populateMpCore rootConds coordinate component eps claimed)

/-- The ordered list of face classifications performed by
`_ConstructFaceModelParts` (lines 138–148): first the slave (max) faces
`max_x_face`, `max_y_face` (and `max_z_face` when `domain_size == 3`),
then the master (min) faces `min_x_face`, `min_y_face` (and
`min_z_face`).  Each entry is the target coordinate and the axis. -/
def faceSpecs (domain_size : Nat) (min_corner max_corner : Array3) :
    List (ℚ × Fin 3) :=
  ([(max_corner.get 0, 0), (max_corner.get 1, 1)]
      ++ (if domain_size = 3 then [(max_corner.get 2, 2)] else []))
    ++ ([(min_corner.get 0, 0), (min_corner.get 1, 1)]
      ++ (if domain_size = 3 then [(min_corner.get 2, 2)] else []))

/-- Run the `__PopulateMp` classifications for a list of face specs in
order, threading the claimed-node set (the `SLAVE` flags, reset before the
first call at line 135). -/
def classifyFaces (rootConds : List BCond) (eps : ℚ) :
    List (ℚ × Fin 3) → List Nat → List FaceMP
  | [], _ => []
  | s :: rest, claimed =>
    let r := populateMpCore rootConds s.1 s.2 eps claimed
    r.1 :: classifyFaces rootConds eps rest r.2

/-- Number of slave (max) faces classified before the master (min) faces:
3 in 3-D, else 2. -/
def numMaxFaces (domain_size : Nat) : Nat :=
  if domain_size = 3 then 3 else 2

/-- Placeholder face model part used as `getD` default when indexing the
classified face list. -/
def emptyFace : FaceMP :=
  ⟨[], []⟩

/-- `FluidRVEAnalysis._ConstructFaceModelParts` (lines 130–155).  `eps` is
`populate_search_eps * diag_lenght` computed at lines 131–133 (the
diagonal length is irrational in general, so the already-scaled absolute
tolerance is taken as the input here).  The `SLAVE` flags are reset (line
135), the six (or four) face groups are classified in max-before-min order
(lines 139–148), and the *min* faces are then checked to have at least one
condition (lines 150–155).  The boundary-model-part emptiness guard lives
in each `__PopulateMp` call (lines 106–107); the supplied boundary model
part is not modified between the calls, so its single check is hoisted in
front.  Returns the classified face groups in classification order. -/
def constructFaceModelParts (domain_size : Nat) (min_corner max_corner : Array3)
    (boundaryConds rootConds : List BCond) (eps : ℚ) :
    Except String (List FaceMP) :=
  if boundaryConds.length = 0 then
    .error "Boundary_mp is expected to have conditions and has none"
  else
    let faces := classifyFaces rootConds eps (faceSpecs domain_size min_corner max_corner) []
    let minFaces := faces.drop (numMaxFaces domain_size)
    if (minFaces.getD 0 emptyFace).conds.length = 0 then
      .error "min_x_face has 0 conditions"
    else if (minFaces.getD 1 emptyFace).conds.length = 0 then
      .error "min_y_face has 0 conditions"
    else if domain_size = 3 ∧ (minFaces.getD 2 emptyFace).conds.length = 0 then
      .error "min_z_face has 0 conditions"
    else
      .ok faces

/-- A master-slave constraint held by the root model part's constraint
store, with its `TO_ERASE` flag. -/
structure MSConstraint where
  id : Nat
  toErase : Bool
deriving DecidableEq

/-- The clearing loop of `_ApplyPeriodicity` (lines 159–162): flag every
constraint of the root model part `TO_ERASE`, then remove all flagged
constraints from all levels. -/
def clearAllConstraints (constraints : List MSConstraint) : List MSConstraint :=
  (constraints.map (fun c => { c with toErase := true })).filter (fun c => !c.toErase)

/-- `FluidRVEAnalysis._ApplyPeriodicity` (lines 157–180), acting on the
root model part's constraint store.

Modelled from the spec: `KratosMultiphysics.RVEPeriodicityUtility` (the
native utility whose `AssignPeriodicity` and `Finalize` build the
periodicity constraints) is not present under `src/`.  Per the spec it
deterministically establishes, for each axis pair, master-slave relations
between the min-face (master) and max-face (slave) node sets from the
strain tensor and the face-separation vector, and `Finalize` turns the
accumulated relations into the constraints of the mesh; it is modelled
here as the parameter `build`, a function from the strain tensor to the
list of constraints the utility adds.  The method first clears *all*
existing constraints (lines 159–162) and then adds the utility's
constraints. -/
def applyPeriodicity {S : Type} (build : S → List MSConstraint) (strain : S)
    (rootConstraints : List MSConstraint) : List MSConstraint :=
  clearAllConstraints rootConstraints ++ build strain

/-! ## Claims about the FETI coupled solver -/

/-- Claim C1: with `timestep_ratio = 3`, one call to `SolveSolutionStep` performs
exactly one solve / stiffness-submit pair on domain A (index 0) and exactly
three solve / stiffness-submit / equilibrate triples on domain B (index 1);
domain B's `AdvanceInTime`, `InitializeSolutionStep` and `Predict` are
invoked only in substeps 2 and 3, never in substep 1 (two occurrences in
total). -/
theorem C1_subcycle_counts (vtkTwo resA : Bool) (resB : Nat → Bool) :
    ((solveSolutionStep 3 vtkTwo resA resB).1.count .solveA = 1 ∧
      (solveSolutionStep 3 vtkTwo resA resB).1.count .sendStiffA = 1) ∧
    ((solveSolutionStep 3 vtkTwo resA resB).1.count .solveB = 3 ∧
      (solveSolutionStep 3 vtkTwo resA resB).1.count .sendStiffB = 3 ∧
      (solveSolutionStep 3 vtkTwo resA resB).1.count .equilibrate = 3) ∧
    ((subStepEvents 3 vtkTwo 1).count .advanceB = 0 ∧
      (subStepEvents 3 vtkTwo 1).count .initStepB = 0 ∧
      (subStepEvents 3 vtkTwo 1).count .predictB = 0) ∧
    ((subStepEvents 3 vtkTwo 2).count .advanceB = 1 ∧
      (subStepEvents 3 vtkTwo 2).count .initStepB = 1 ∧
      (subStepEvents 3 vtkTwo 2).count .predictB = 1) ∧
    ((subStepEvents 3 vtkTwo 3).count .advanceB = 1 ∧
      (subStepEvents 3 vtkTwo 3).count .initStepB = 1 ∧
      (subStepEvents 3 vtkTwo 3).count .predictB = 1) ∧
    ((solveSolutionStep 3 vtkTwo resA resB).1.count .advanceB = 2 ∧
      (solveSolutionStep 3 vtkTwo resA resB).1.count .initStepB = 2 ∧
      (solveSolutionStep 3 vtkTwo resA resB).1.count .predictB = 2) := by
  cases vtkTwo <;>
    exact ⟨⟨rfl, rfl⟩, ⟨rfl, rfl, rfl⟩, ⟨rfl, rfl, rfl⟩, ⟨rfl, rfl, rfl⟩,
      ⟨rfl, rfl, rfl⟩, ⟨rfl, rfl, rfl⟩⟩

/-- Claim C10: `SolveSolutionStep` returns `True` unconditionally; the booleans
returned by the two domains' solves (`resA`, `resB`) are discarded, so the
whole result — trace and success indicator — is independent of them. -/
theorem C10_returns_true_unconditionally (timestep_ratio : Nat) (vtkTwo : Bool)
    (resA resA' : Bool) (resB resB' : Nat → Bool) :
    (solveSolutionStep timestep_ratio vtkTwo resA resB).2 = true ∧
    solveSolutionStep timestep_ratio vtkTwo resA resB
      = solveSolutionStep timestep_ratio vtkTwo resA' resB' :=
  ⟨rfl, rfl⟩

/-- Claim C2, counterexample: in a run where domain B's `AdvanceInTime` returns 5
and domain A's returns 0, the coupler's time is 0, not domain B's non-zero
value 5 — the code never consults `solverB_time` when setting `self.time`,
refuting "the first non-zero value returned by either domain". -/
theorem C2_counterexample :
    (advanceInTime (fun _ => 0) (fun _ => 5) 1).2.1 = 0 ∧ (0 : ℚ) ≠ 5 :=
  ⟨rfl, by norm_num⟩

/-- Claim C2, amended: `AdvanceInTime` advances domain B first, then domain A,
and the coupler's own time is exactly domain A's returned time (which is 0
whenever domain A reports 0, regardless of domain B); domain B's returned
time is stored separately and never becomes the coupler's time. -/
theorem C2_amended_time_is_domain_A (advA advB : ℚ → ℚ) (t : ℚ) :
    advanceInTime advA advB t = ([.advB, .advA], advA t, advB t) := by
  unfold advanceInTime
  by_cases h : advA t = 0 <;> simp [h]

/-- Claim C5, counterexample: `timestep_ratio = 0` and `timestep_ratio = -2` both
pass the construction-time check (only integrality is tested), refuting
the claim that zero and negative values raise a configuration error. -/
theorem C5_counterexample :
    timestepRatioInit 0 = .ok 0 ∧ timestepRatioInit (-2) = .ok (-2) :=
  ⟨rfl, rfl⟩

/-- Claim C5, amended: the `timestep_ratio` configuration value is validated at
construction to be an *integer* (not necessarily positive): construction
succeeds on this check exactly when the value is an integer — zero and
negative integers included — and every non-integer value (such as 2.5)
raises the fatal configuration error. -/
theorem C5_amended_integrality_only (r : ℚ) :
    ((timestepRatioInit r).isOk = true ↔ ∃ m : ℤ, (m : ℚ) = r) ∧
    (¬(∃ m : ℤ, (m : ℚ) = r) →
      timestepRatioInit r
        = .error "An integer timestep_ratio must be specified in the CoSim parameters file.") := by
  have key : ((pyInt r : ℚ) = r) ↔ ∃ m : ℤ, (m : ℚ) = r := by
    constructor
    · intro h
      exact ⟨pyInt r, h⟩
    · rintro ⟨m, rfl⟩
      unfold pyInt
      by_cases h : (m : ℚ) < 0
      · rw [if_pos h]
        have hm : (-(m : ℚ)) = ((-m : ℤ) : ℚ) := by push_cast; ring
        rw [hm, Int.floor_intCast]
        push_cast
        ring
      · rw [if_neg h, Int.floor_intCast]
  constructor
  · unfold timestepRatioInit
    by_cases h : (pyInt r : ℚ) = r
    · simp [h, Except.isOk, Except.toBool, key.mp h]
    · simp only [if_pos (show (pyInt r : ℚ) ≠ r from h)]
      simp [Except.isOk, Except.toBool]
      intro m hm
      exact h (key.mpr ⟨m, hm⟩)
  · intro hne
    unfold timestepRatioInit
    rw [if_pos]
    intro h
    exact hne (key.mp h)

/-- Claim C5, amended, witness: 2.5 is not an integer and construction fails on
it with the configuration error. -/
theorem C5_amended_witness :
    ¬(∃ m : ℤ, (m : ℚ) = 5 / 2) ∧
    timestepRatioInit (5 / 2)
      = .error "An integer timestep_ratio must be specified in the CoSim parameters file." := by
  have hne : ¬(∃ m : ℤ, (m : ℚ) = 5 / 2) := by
    rintro ⟨m, hm⟩
    have h2 : (2 : ℚ) * m = 5 := by rw [hm]; norm_num
    have h3 : (2 : ℤ) * m = 5 := by exact_mod_cast h2
    omega
  exact ⟨hne, (C5_amended_integrality_only (5 / 2)).2 hne⟩

/-- Claim C8: for each domain index, a non-zero configured Newmark beta
(implicit mode) makes the stiffness-exchange step submit the matrix
retrieved from that domain's solver strategy tagged with the index, while
beta = 0.0 (explicit mode) makes it submit only the explicit-mode signal
for that index, with no matrix. -/
theorem C8_stiffness_exchange {M : Type} (ob db : ℚ) (g : Fin 2 → M) (i : Fin 2) :
    (betaAt ob db i ≠ 0 →
      sendStiffnessMatrixToUtility (mkIsImplicit ob db) g i
        = .implicitMatrix (g i) i.val) ∧
    (betaAt ob db i = 0 →
      sendStiffnessMatrixToUtility (mkIsImplicit ob db) g i
        = .explicitSignal i.val) := by
  have key : isImplicitAt (mkIsImplicit ob db) i = decide (betaAt ob db i ≠ 0) := by
    fin_cases i <;> by_cases h1 : ob = 0 <;> by_cases h2 : db = 0 <;>
      simp [mkIsImplicit, isImplicitAt, betaAt, h1, h2]
  constructor <;> intro h <;> simp [sendStiffnessMatrixToUtility, key, h]

/-- Claim C8, witness: with `origin_newmark_beta = 1` (implicit) and
`destination_newmark_beta = 0` (explicit), domain 0 submits the matrix and
domain 1 submits the explicit-mode signal. -/
theorem C8_witness :
    sendStiffnessMatrixToUtility (mkIsImplicit 1 0) (fun _ => (7 : ℕ)) 0
      = .implicitMatrix 7 0 ∧
    sendStiffnessMatrixToUtility (mkIsImplicit 1 0) (fun _ => (7 : ℕ)) 1
      = .explicitSignal 1 :=
  ⟨(C8_stiffness_exchange 1 0 (fun _ => (7 : ℕ)) 0).1 (by norm_num [betaAt]),
   (C8_stiffness_exchange 1 0 (fun _ => (7 : ℕ)) 1).2 (by norm_num [betaAt])⟩

/-! ## Claims about the RVE bounding box -/

/-- After one update step of the bounding-box scan, every axis's running
minimum is at most its running maximum. -/
theorem bboxStep_le (acc : Array3 × Array3) (n : KNode) (i : Fin 3) :
    (bboxStep acc n).1.get i ≤ (bboxStep acc n).2.get i := by
  fin_cases i <;>
    exact le_trans (min_le_right _ _) (le_max_right _ _)

/-- Folding further nodes preserves per-axis `min ≤ max`. -/
theorem foldl_bbox_le (nodes : List KNode) (acc : Array3 × Array3)
    (h : ∀ i : Fin 3, acc.1.get i ≤ acc.2.get i) (i : Fin 3) :
    (nodes.foldl bboxStep acc).1.get i ≤ (nodes.foldl bboxStep acc).2.get i := by
  induction nodes generalizing acc with
  | nil => exact h i
  | cons n rest ih =>
    exact ih (bboxStep acc n) (fun j => bboxStep_le acc n j)

/-- Claim C9: for every mesh region with at least one node and every domain
dimensionality d ∈ {2, 3}, the detected bounding box satisfies
`min_corner[i] ≤ max_corner[i]` for every axis `i < d`. -/
theorem C9_bbox_min_le_max (nodes : List KNode) (d : Nat)
    (hne : nodes ≠ []) (_hd : d = 2 ∨ d = 3) (i : Fin 3) (_hi : (i : Nat) < d) :
    (detectBoundingBox nodes).1.get i ≤ (detectBoundingBox nodes).2.get i := by
  match nodes, hne with
  | n :: rest, _ =>
    unfold detectBoundingBox
    rw [List.foldl_cons]
    exact foldl_bbox_le rest _ (fun j => bboxStep_le _ n j) i

/-- Claim C9, witness: a one-node region in 2-D. -/
theorem C9_witness :
    ([⟨1, 2, 3⟩] : List KNode) ≠ [] ∧
    (detectBoundingBox [⟨1, 2, 3⟩]).1.get 0 ≤ (detectBoundingBox [⟨1, 2, 3⟩]).2.get 0 :=
  ⟨by simp, C9_bbox_min_le_max [⟨1, 2, 3⟩] 2 (by simp) (Or.inl rfl) 0 (by norm_num)⟩

/-! ## Claims about face classification and periodicity -/

/-- A node id enters the `node_ids` of a face exactly when it is a node of
an included facet and was not already flagged when the face was populated. -/
theorem claimNodes_fst_mem (ns : List Nat) (claimed : List Nat) (n : Nat) :
    n ∈ (claimNodes ns claimed).1 ↔ n ∈ ns ∧ n ∉ claimed := by
  induction ns generalizing claimed with
  | nil => simp [claimNodes]
  | cons m rest ih =>
    by_cases hm : m ∈ claimed
    · simp only [claimNodes, if_pos hm, ih, List.mem_cons]
      constructor
      · rintro ⟨h1, h2⟩
        exact ⟨Or.inr h1, h2⟩
      · rintro ⟨rfl | h1, h2⟩
        · exact absurd hm h2
        · exact ⟨h1, h2⟩
    · simp only [claimNodes, if_neg hm, List.mem_cons, ih]
      constructor
      · rintro (rfl | ⟨h1, h2⟩)
        · exact ⟨Or.inl rfl, hm⟩
        · exact ⟨Or.inr h1, fun hc => h2 (Or.inr hc)⟩
      · rintro ⟨rfl | h1, h2⟩
        · exact Or.inl rfl
        · by_cases hnm : n = m
          · exact Or.inl hnm
          · exact Or.inr ⟨h1, fun hc => hc.elim hnm h2⟩

/-- After populating a face, the flagged set is the union of the facets'
nodes and the previously flagged set. -/
theorem claimNodes_snd_mem (ns : List Nat) (claimed : List Nat) (n : Nat) :
    n ∈ (claimNodes ns claimed).2 ↔ n ∈ ns ∨ n ∈ claimed := by
  induction ns generalizing claimed with
  | nil => simp [claimNodes]
  | cons m rest ih =>
    by_cases hm : m ∈ claimed
    · simp only [claimNodes, if_pos hm, ih, List.mem_cons]
      constructor
      · exact fun h => h.elim (fun h1 => Or.inl (Or.inr h1)) Or.inr
      · rintro ((rfl | h1) | h2)
        · exact Or.inr hm
        · exact Or.inl h1
        · exact Or.inr h2
    · simp only [claimNodes, if_neg hm, List.mem_cons, ih]
      tauto

/-- The node ids of the facets a face spec selects from the root
conditions, in traversal order. -/
def specNodes (rootConds : List BCond) (eps : ℚ) (s : ℚ × Fin 3) : List Nat :=
  (rootConds.filter (condMatches s.1 s.2 eps)).flatMap (fun c => c.nodes)

/-- Membership in a populated face's node set. -/
theorem populateMpCore_nodeIds (rootConds : List BCond) (co : ℚ) (comp : Fin 3)
    (eps : ℚ) (cl : List Nat) (n : Nat) :
    n ∈ (populateMpCore rootConds co comp eps cl).1.nodeIds ↔
      n ∈ specNodes rootConds eps (co, comp) ∧ n ∉ cl := by
  simp [populateMpCore, specNodes, claimNodes_fst_mem]

/-- Membership in the flagged set after populating a face. -/
theorem populateMpCore_claimed (rootConds : List BCond) (co : ℚ) (comp : Fin 3)
    (eps : ℚ) (cl : List Nat) (n : Nat) :
    n ∈ (populateMpCore rootConds co comp eps cl).2 ↔
      n ∈ specNodes rootConds eps (co, comp) ∨ n ∈ cl := by
  simp [populateMpCore, specNodes, claimNodes_snd_mem]

/-- One face classification per spec. -/
theorem classifyFaces_length (rootConds : List BCond) (eps : ℚ)
    (specs : List (ℚ × Fin 3)) (cl : List Nat) :
    (classifyFaces rootConds eps specs cl).length = specs.length := by
  induction specs generalizing cl with
  | nil => rfl
  | cons s rest ih => simp [classifyFaces, ih]

/-- No face classified from a flagged set ever re-claims a flagged node. -/
theorem classifyFaces_not_claimed (rootConds : List BCond) (eps : ℚ) :
    ∀ (specs : List (ℚ × Fin 3)) (cl : List Nat) (f : FaceMP),
      f ∈ classifyFaces rootConds eps specs cl → ∀ n ∈ f.nodeIds, n ∉ cl
  | [], _, _, hf => by simp [classifyFaces] at hf
  | s :: rest, cl, f, hf => by
    simp only [classifyFaces, List.mem_cons] at hf
    rcases hf with rfl | hf
    · intro n hn
      exact ((populateMpCore_nodeIds rootConds s.1 s.2 eps cl n).mp hn).2
    · intro n hn hcl
      exact classifyFaces_not_claimed rootConds eps rest _ f hf n hn
        ((populateMpCore_claimed rootConds s.1 s.2 eps cl n).mpr (Or.inr hcl))

/-- Two distinct face groups of one classification pass never share a
node id. -/
def nodesDisjoint (a b : FaceMP) : Prop :=
  ∀ n, n ∈ a.nodeIds → n ∉ b.nodeIds

/-- The face groups produced by one classification pass have pairwise
disjoint node sets. -/
theorem classifyFaces_pairwise (rootConds : List BCond) (eps : ℚ) :
    ∀ (specs : List (ℚ × Fin 3)) (cl : List Nat),
      List.Pairwise nodesDisjoint (classifyFaces rootConds eps specs cl)
  | [], _ => by simp [classifyFaces]
  | s :: rest, cl => by
    simp only [classifyFaces, List.pairwise_cons]
    refine ⟨?_, classifyFaces_pairwise rootConds eps rest _⟩
    intro f hf n hn
    have h1 := (populateMpCore_nodeIds rootConds s.1 s.2 eps cl n).mp hn
    have h2 : n ∈ (populateMpCore rootConds s.1 s.2 eps cl).2 :=
      (populateMpCore_claimed rootConds s.1 s.2 eps cl n).mpr (Or.inl h1.1)
    exact fun hnf => classifyFaces_not_claimed rootConds eps rest _ f hf n hnf h2

/-- Which group owns a node: position `j`'s node set consists exactly of
the nodes of its own facets that no earlier-classified group's facets
carry (and that were unflagged at the start of the pass). -/
theorem classifyFaces_getD_nodeIds (rootConds : List BCond) (eps : ℚ) :
    ∀ (specs : List (ℚ × Fin 3)) (cl : List Nat) (j : Nat), j < specs.length →
      ∀ n, n ∈ ((classifyFaces rootConds eps specs cl).getD j emptyFace).nodeIds ↔
        (n ∈ specNodes rootConds eps (specs.getD j (0, 0)) ∧ n ∉ cl ∧
          ∀ i, i < j → n ∉ specNodes rootConds eps (specs.getD i (0, 0)))
  | [], _, j, hj, _ => absurd hj (by simp)
  | s :: rest, cl, 0, _, n => by
    simp only [classifyFaces, List.getD_cons_zero]
    rw [populateMpCore_nodeIds]
    simp
  | s :: rest, cl, j + 1, hj, n => by
    simp only [classifyFaces, List.getD_cons_succ]
    rw [classifyFaces_getD_nodeIds rootConds eps rest _ j (by simpa using hj) n]
    constructor
    · rintro ⟨h1, h2, h3⟩
      rw [populateMpCore_claimed] at h2
      push_neg at h2
      refine ⟨h1, h2.2, ?_⟩
      intro i hi
      match i with
      | 0 => simpa using h2.1
      | i' + 1 =>
        have := h3 i' (by omega)
        simpa using this
    · rintro ⟨h1, h2, h3⟩
      refine ⟨h1, ?_, ?_⟩
      · rw [populateMpCore_claimed]
        push_neg
        exact ⟨by simpa using h3 0 (by omega), h2⟩
      · intro i hi
        have := h3 (i + 1) (by omega)
        simpa using this

/-- Min-x facet of the boundary of the square `[0,2]²`: center `(0,1)`,
nodes 1 (corner at the origin) and 4 (corner at `(0,2)`). -/
def sqMinX : BCond := ⟨⟨0, 1, 0⟩, [1, 4]⟩

/-- Max-x facet of the square: center `(2,1)`, nodes 2 and 3. -/
def sqMaxX : BCond := ⟨⟨2, 1, 0⟩, [2, 3]⟩

/-- Min-y facet of the square: center `(1,0)`, nodes 1 and 2. -/
def sqMinY : BCond := ⟨⟨1, 0, 0⟩, [1, 2]⟩

/-- Max-y facet of the square: center `(1,2)`, nodes 3 and 4. -/
def sqMaxY : BCond := ⟨⟨1, 2, 0⟩, [3, 4]⟩

/-- Boundary of the square `[0,2]²` with corner nodes shared between
adjacent facets. -/
def sqConds : List BCond := [sqMinX, sqMaxX, sqMinY, sqMaxY]

/-- The face groups classified from `sqConds` with corners `(0,0)`/`(2,2)`
and `eps = 1`: max-x, max-y, min-x, min-y in classification order; corner
nodes 2, 3 are owned by max-x, 4 by max-y, 1 by min-x, and min-y (last)
owns none. -/
def sqFaces : List FaceMP :=
  [⟨[sqMaxX], [2, 3]⟩, ⟨[sqMaxY], [4]⟩, ⟨[sqMinX], [1]⟩, ⟨[sqMinY], []⟩]

/-- A boundary region whose conditions lie entirely on the min sides of
the box `[0,2]²`: one facet on min-x, one on min-y, nothing on the max
faces. -/
def lowMinX : BCond := ⟨⟨0, 1, 0⟩, [1, 2]⟩

/-- The min-y facet of the one-sided boundary region. -/
def lowMinY : BCond := ⟨⟨1, 0, 0⟩, [2, 3]⟩

/-- The one-sided boundary region: no facet within tolerance of the max-x
or max-y coordinate. -/
def oneSidedConds : List BCond := [lowMinX, lowMinY]

/-- A condition of the root model part that is *not* part of the supplied
boundary region, with its center on the max-x face. -/
def strayCond : BCond := ⟨⟨2, 1, 0⟩, [9]⟩

/-- Claim C3, counterexample: classifying the one-sided boundary region (corners
`(0,0)`/`(2,2)`, `eps = 1`) succeeds — no error is raised — even though
the max-x face group (position 0 of the classification order) ends up
with zero facets.  Only the min faces are checked, refuting "for every
axis and for both the min and the max face". -/
theorem C3_counterexample :
    (constructFaceModelParts 2 ⟨0, 0, 0⟩ ⟨2, 2, 0⟩ oneSidedConds oneSidedConds 1).map
        (fun faces => (faces.getD 0 emptyFace).conds.length) = .ok 0 := by
  norm_num [constructFaceModelParts, classifyFaces, populateMpCore, claimNodes,
    condMatches, faceSpecs, numMaxFaces, emptyFace, Array3.get, Except.map,
    lowMinX, lowMinY, oneSidedConds]

/-- Claim C3, amended: whenever face construction returns without error, the
supplied boundary region was non-empty and each *min* (master) face group
has at least one facet — those are the only zero-facet checks; a max
(slave) face group can be empty without any error being raised.  The
checks happen inside `_ConstructFaceModelParts`, before `_ApplyPeriodicity`
builds any constraint. -/
theorem C3_amended_only_min_faces_checked (domain_size : Nat)
    (min_corner max_corner : Array3) (boundaryConds rootConds : List BCond)
    (eps : ℚ) (faces : List FaceMP)
    (h : constructFaceModelParts domain_size min_corner max_corner boundaryConds
        rootConds eps = .ok faces) :
    boundaryConds ≠ [] ∧
    ((faces.drop (numMaxFaces domain_size)).getD 0 emptyFace).conds.length ≠ 0 ∧
    ((faces.drop (numMaxFaces domain_size)).getD 1 emptyFace).conds.length ≠ 0 ∧
    (domain_size = 3 →
      ((faces.drop (numMaxFaces domain_size)).getD 2 emptyFace).conds.length ≠ 0) := by
  simp only [constructFaceModelParts] at h
  split_ifs at h with h1 h2 h3 h4
  push_neg at h4
  rw [Except.ok.injEq] at h
  subst h
  exact ⟨fun hc => h1 (by simp [hc]), h2, h3, h4⟩

/-- Claim C3, amended, witness: the full square boundary passes all checks and
each min face group indeed has a facet. -/
theorem C3_amended_witness :
    sqConds ≠ [] ∧
    ((sqFaces.drop (numMaxFaces 2)).getD 0 emptyFace).conds.length ≠ 0 ∧
    ((sqFaces.drop (numMaxFaces 2)).getD 1 emptyFace).conds.length ≠ 0 ∧
    ((2 : Nat) = 3 →
      ((sqFaces.drop (numMaxFaces 2)).getD 2 emptyFace).conds.length ≠ 0) :=
  C3_amended_only_min_faces_checked 2 ⟨0, 0, 0⟩ ⟨2, 2, 0⟩ sqConds sqConds 1 sqFaces
    (by norm_num [constructFaceModelParts, classifyFaces, populateMpCore, claimNodes,
      condMatches, faceSpecs, numMaxFaces, emptyFace, Array3.get,
      sqMinX, sqMaxX, sqMinY, sqMaxY, sqConds, sqFaces])

/-- Claim C4, counterexample: populating the max-x face with the supplied
boundary region `[sqMinX]` adds `strayCond` — a condition of the root
model part that is *not* a facet of the supplied boundary region — to the
face group, refuting "no facet outside the boundary region is ever
added". -/
theorem C4_counterexample :
    populateMp [sqMinX] [sqMinX, strayCond] 2 0 1 [] = .ok (⟨[strayCond], [9]⟩, [9]) ∧
    strayCond ∉ [sqMinX] := by
  constructor
  · norm_num [populateMp, populateMpCore, claimNodes, condMatches, Array3.get,
      sqMinX, strayCond]
  · simp [sqMinX, strayCond]

/-- Claim C4, amended: a facet is included in a face group exactly when it is a
condition of the *root model part* of the supplied boundary region whose
geometric center satisfies `|center[axis] − targetCoordinate| < eps`;
conditions of the root outside the supplied boundary sub-region are also
scanned and can be added. -/
theorem C4_amended_root_membership (rootConds : List BCond) (coordinate : ℚ)
    (component : Fin 3) (eps : ℚ) (claimed : List Nat) (c : BCond) :
    c ∈ (populateMpCore rootConds coordinate component eps claimed).1.conds ↔
      c ∈ rootConds ∧ |c.center.get component - coordinate| < eps := by
  simp [populateMpCore, List.mem_filter, condMatches]

/-- Claim C6: when face construction succeeds, the classified face groups (in
classification order: all max/slave faces first, then all min/master
faces, per `faceSpecs`) have pairwise disjoint node sets — every node
belongs to at most one group — and each group's node set consists exactly
of its facets' nodes not carried by any earlier-classified group's
facets: a node on a shared edge or corner is claimed by whichever group
is classified first. -/
theorem C6_node_owned_by_first_group (domain_size : Nat)
    (min_corner max_corner : Array3) (boundaryConds rootConds : List BCond)
    (eps : ℚ) (faces : List FaceMP)
    (h : constructFaceModelParts domain_size min_corner max_corner boundaryConds
        rootConds eps = .ok faces) :
    List.Pairwise nodesDisjoint faces ∧
    faces.length = (faceSpecs domain_size min_corner max_corner).length ∧
    (∀ j, j < faces.length → ∀ n,
      n ∈ (faces.getD j emptyFace).nodeIds ↔
        (n ∈ specNodes rootConds eps
            ((faceSpecs domain_size min_corner max_corner).getD j (0, 0)) ∧
          ∀ i, i < j →
            n ∉ specNodes rootConds eps
              ((faceSpecs domain_size min_corner max_corner).getD i (0, 0)))) := by
  have hfaces : faces
      = classifyFaces rootConds eps (faceSpecs domain_size min_corner max_corner) [] := by
    simp only [constructFaceModelParts] at h
    split_ifs at h
    rw [Except.ok.injEq] at h
    exact h.symm
  refine ⟨?_, ?_, ?_⟩
  · rw [hfaces]
    exact classifyFaces_pairwise rootConds eps _ _
  · rw [hfaces, classifyFaces_length]
  · intro j hj n
    rw [hfaces] at hj ⊢
    rw [classifyFaces_length] at hj
    have := classifyFaces_getD_nodeIds rootConds eps _ [] j hj n
    simpa using this

/-- Claim C6, witness: on the square boundary, the four classified face groups
have pairwise disjoint node sets (corner nodes each claimed once, by the
first group that saw them). -/
theorem C6_witness :
    List.Pairwise nodesDisjoint sqFaces :=
  (C6_node_owned_by_first_group 2 ⟨0, 0, 0⟩ ⟨2, 2, 0⟩ sqConds sqConds 1 sqFaces
    (by norm_num [constructFaceModelParts, classifyFaces, populateMpCore, claimNodes,
      condMatches, faceSpecs, numMaxFaces, emptyFace, Array3.get,
      sqMinX, sqMaxX, sqMinY, sqMaxY, sqConds, sqFaces])).1

/-- Flagging every constraint `TO_ERASE` and removing the flagged ones
empties the store, whatever it held. -/
theorem clearAllConstraints_eq_nil (cs : List MSConstraint) :
    clearAllConstraints cs = [] := by
  simp only [clearAllConstraints, List.filter_eq_nil_iff, List.mem_map]
  rintro c ⟨b, _, rfl⟩
  simp

/-- Claim C7: `_ApplyPeriodicity` removes *all* existing master-slave
constraints of the root mesh — whatever their origin — and rebuilds the
store from scratch as exactly the utility's output for the given strain;
in particular two consecutive calls with the same strain tensor leave
constraint sets of the same size. -/
theorem C7_constraints_fully_replaced {S : Type} (build : S → List MSConstraint)
    (strain : S) (rootConstraints : List MSConstraint) :
    applyPeriodicity build strain rootConstraints = build strain ∧
    (applyPeriodicity build strain (applyPeriodicity build strain rootConstraints)).length
      = (applyPeriodicity build strain rootConstraints).length := by
  constructor
  · simp [applyPeriodicity, clearAllConstraints_eq_nil]
  · simp [applyPeriodicity, clearAllConstraints_eq_nil]

end Kratos
